import Mathlib

/-!
Shallow embedding of the `vue-easy-di` library (`src/index.ts`).

The library exports a single factory, `defineUseDependencyInjection`,
which parses its two optional arguments into a bound initializer and a
base configuration and returns a resolver closure,
`UseDependencyInjection`.  The resolver either publishes a value into
the host framework's context (mode `'provide'`) or consumes one from it
(mode `'inject'`, also the default), applying a precedence rule between
an `injectDefault` fallback and a `throwOnNoProvider` error factory.

Modelling choices:

* JavaScript nullish values (`null` / `undefined`) are `Option.none`;
  a `!= null` check is `Option.isSome`.  A `'field' in o && o.field != null`
  test collapses to `Option.isSome` of the field.
* The host context (Vue's provide/inject chain) is abstracted to a
  lookup function `Ctx K V := K → Option V`; `provide(key, value)` is
  `Ctx.set`, and Vue's `inject(key, default, true)` (treat-default-as-
  factory form) is `injectWithDefault`.  A publisher being present
  anywhere in the ancestor chain is `ctx k = some v`.
* Initializers may return a nullish value at runtime, so they are
  `Unit → Option V`; the nullish-coalescing chain
  `overrideInitializer?.() ?? initializer?.()` is `resolveProvideValue`.
* `injectDefault : T | (() => T)` is the sum `InjectDefault V`
  (plain value vs. zero-argument factory); Vue invokes the factory form
  and returns the value form as-is.
* Thrown errors are the inductive `Thrown K E`: the two `TypeError`s of
  the source, the "not initialized" error (carrying the binding key,
  whose string form the real message interpolates), and errors produced
  by a user-supplied `throwOnNoProvider` factory.
* The fresh `Symbol()` generated when no explicit key is configured is
  an explicit `fresh : K` argument to the resolver.
-/

namespace VueEasyDI

variable {K V E : Type}

/-- A bound or override initializer: a zero-argument function whose result
may be nullish at runtime (the source checks `value == null`). -/
abbrev Initializer (V : Type) := Unit → Option V

/-- The host context: nearest-ancestor lookup for a binding key.
`none` means no publisher exists anywhere in the ancestor chain. -/
abbrev Ctx (K V : Type) := K → Option V

/-- Vue's `provide(key, value)`: attach `value` under `key` for descendants. -/
def Ctx.set [DecidableEq K] (ctx : Ctx K V) (k : K) (v : V) : Ctx K V :=
  fun x => if x = k then some v else ctx x

/-- The `injectDefault` option: either a plain value of type `T` or a
zero-argument factory producing one (`T | (() => T)` in the source). -/
inductive InjectDefault (V : Type) where
  | value : V → InjectDefault V
  | factory : (Unit → V) → InjectDefault V

/-- Vue's `inject(key, default, true)`: return the nearest ancestor's value
for `key`; otherwise invoke the default when it is a function, else return
it as-is.  This path never throws. -/
def injectWithDefault (ctx : Ctx K V) (k : K) (d : InjectDefault V) : V :=
  match ctx k with
  | some v => v
  | none =>
    match d with
    | InjectDefault.value v => v
    | InjectDefault.factory f => f ()

/-- Errors thrown by the library.  `badFirstArg` and `badSecondArg` are the
two `TypeError`s raised at lines 258 and 283 of the source;
`notInitialized` is the publish-mode error at line 287 (its message
interpolates the key's string form); `userError` wraps an error object
built by a caller-supplied `throwOnNoProvider` factory. -/
inductive Thrown (K E : Type) where
  | badFirstArg : Thrown K E
  | badSecondArg : Thrown K E
  | notInitialized : K → Thrown K E
  | userError : E → Thrown K E

/-- Base configuration accepted by the factory (`Partial<Options<T>>`):
an optional explicit key and the two optional, mutually exclusive
default policies. -/
structure Options (K V E : Type) where
  key : Option K := none
  injectDefault : Option (InjectDefault V) := none
  throwOnNoProvider : Option (Unit → E) := none

/-- Per-call override configuration for consume mode
(`OverrideOptions<T>`): the two optional default policies, no key. -/
structure OverrideOptions (V E : Type) where
  injectDefault : Option (InjectDefault V) := none
  throwOnNoProvider : Option (Unit → E) := none

/-- The effective configuration computed in consume mode
(`finalOptions` at line 303 of the source). -/
structure FinalOptions (V E : Type) where
  injectDefault : Option (InjectDefault V)
  throwOnNoProvider : Option (Unit → E)

/-- A non-nullish first argument to the factory: either a function (an
initializer) or a non-function (a configuration object). -/
inductive FactoryArg (K V E : Type) where
  | initializer : Initializer V → FactoryArg K V E
  | options : Options K V E → FactoryArg K V E

/-- The state the returned resolver closes over: the bound initializer
(possibly absent) and the base configuration. -/
structure FactoryState (K V E : Type) where
  initializer : Option (Initializer V)
  options : Options K V E

/-- Argument parsing of `defineUseDependencyInjection` (lines 249-277).
When both arguments are non-nullish the first must be a function, else a
`TypeError` is thrown; with one non-nullish first argument it is the
initializer when callable and the configuration otherwise; in every
other case (including a nullish first argument with a non-nullish
second) nothing is bound and the configuration is empty. -/
def defineUseDependencyInjection (arg0 : Option (FactoryArg K V E))
    (arg1 : Option (Options K V E)) :
    Except (Thrown K E) (FactoryState K V E) :=
  match arg0, arg1 with
  | some a0, some o1 =>
    match a0 with
    | FactoryArg.initializer f => Except.ok ⟨some f, o1⟩
    | FactoryArg.options _ => Except.error Thrown.badFirstArg
  | some a0, none =>
    match a0 with
    | FactoryArg.initializer f => Except.ok ⟨some f, {}⟩
    | FactoryArg.options o => Except.ok ⟨none, o⟩
  | none, _ => Except.ok ⟨none, {}⟩

/-- The binding key used by the resolver: the configured key when given,
else the fresh `Symbol()` generated at factory time (line 277). -/
def injectKey (st : FactoryState K V E) (fresh : K) : K :=
  st.options.key.getD fresh

/-- A non-nullish second argument to a publish-mode call: either a
callable override initializer or a non-function value. -/
inductive ProvideArg (V : Type) where
  | func : Initializer V → ProvideArg V
  | nonFunc : ProvideArg V

/-- The value published in publish mode:
`overrideInitializer?.() ?? initializer?.()` (line 286).  The
nullish-coalescing operator falls through both when the override
initializer is absent and when its invocation returns a nullish value. -/
def resolveProvideValue (init ov : Option (Initializer V)) : Option V :=
  (ov.bind fun f => f ()).orElse fun _ => init.bind fun g => g ()

/-- Publish mode (lines 281-291): a present non-function second argument
throws a `TypeError` before anything is resolved; else the value is
resolved, a nullish result throws the "not initialized" error, and a
non-nullish one is published under the binding key and returned.  The
second component is the resulting host context. -/
def provideMode [DecidableEq K] (ctx : Ctx K V) (init : Option (Initializer V))
    (k : K) (arg1 : Option (ProvideArg V)) :
    Except (Thrown K E) V × Ctx K V :=
  match arg1 with
  | some ProvideArg.nonFunc => (Except.error Thrown.badSecondArg, ctx)
  | _ =>
    let ov : Option (Initializer V) :=
      match arg1 with
      | some (ProvideArg.func f) => some f
      | _ => none
    match resolveProvideValue init ov with
    | none => (Except.error (Thrown.notInitialized k), ctx)
    | some v => (Except.ok v, Ctx.set ctx k v)

/-- Merge of the base configuration with the per-call override
(lines 303-312): a non-nullish override `injectDefault` wins and clears
`throwOnNoProvider`; else a non-nullish override `throwOnNoProvider`
wins and clears `injectDefault`; else the base configuration stands. -/
def mergeOptions (base : Options K V E) (ov : OverrideOptions V E) :
    FinalOptions V E :=
  match ov.injectDefault with
  | some d => { injectDefault := some d, throwOnNoProvider := none }
  | none =>
    match ov.throwOnNoProvider with
    | some e => { injectDefault := none, throwOnNoProvider := some e }
    | none =>
      { injectDefault := base.injectDefault
        throwOnNoProvider := base.throwOnNoProvider }

/-- Consume mode after merging (lines 314-323): with an effective
`injectDefault` the result is `inject(key, default, true)`; otherwise a
bare lookup, throwing the `throwOnNoProvider` error only when the lookup
is nullish and that policy is set, and returning the (possibly nullish)
lookup result otherwise. -/
def injectMode (ctx : Ctx K V) (fo : FinalOptions V E) (k : K) :
    Except (Thrown K E) (Option V) :=
  match fo.injectDefault with
  | some d => Except.ok (some (injectWithDefault ctx k d))
  | none =>
    match ctx k, fo.throwOnNoProvider with
    | some v, _ => Except.ok (some v)
    | none, some ef => Except.error (Thrown.userError (ef ()))
    | none, none => Except.ok none

/-- The first positional argument of a resolver call, classified as the
source does: the literal `'provide'` (with its optional second
argument), the literal `'inject'` (with an optional override
configuration as second argument), or anything else — an absent argument
or an override configuration object — which selects consume mode with
the first argument itself as the override configuration. -/
inductive ResolverCall (V E : Type) where
  | provide : Option (ProvideArg V) → ResolverCall V E
  | injectExplicit : Option (OverrideOptions V E) → ResolverCall V E
  | injectImplicit : Option (OverrideOptions V E) → ResolverCall V E

/-- The resolver closure returned by the factory (lines 278-324):
dispatch on the first argument, publish or consume, and return the
result together with the resulting host context (which consume mode
never changes).  An absent override configuration defaults to the empty
one (`$arg ?? {}`, lines 297 and 300). -/
def UseDependencyInjection [DecidableEq K] (st : FactoryState K V E)
    (fresh : K) (ctx : Ctx K V) (call : ResolverCall V E) :
    Except (Thrown K E) (Option V) × Ctx K V :=
  match call with
  | ResolverCall.provide arg1 =>
    let r := provideMode ctx st.initializer (injectKey st fresh) arg1
    (r.1.map some, r.2)
  | ResolverCall.injectExplicit ovo =>
    (injectMode ctx (mergeOptions st.options (ovo.getD {})) (injectKey st fresh),
      ctx)
  | ResolverCall.injectImplicit ovo =>
    (injectMode ctx (mergeOptions st.options (ovo.getD {})) (injectKey st fresh),
      ctx)

/-! ## Helper lemmas -/

theorem injectMode_of_found (ctx : Ctx K V) (fo : FinalOptions V E) (k : K)
    (v : V) (h : ctx k = some v) : injectMode ctx fo k = Except.ok (some v) := by
  rcases fo with ⟨oi, ot⟩
  cases oi <;> simp [injectMode, injectWithDefault, h]

/-! ## Claims -/

/-- Claim C1: for every consume-mode call the effective default policy is
the merge of the base configuration with the per-call override: a
non-absent override `injectDefault` becomes the effective policy and
clears any base `throwOnNoProvider`; else a non-absent override
`throwOnNoProvider` becomes the effective policy and clears any base
`injectDefault`; else the base policy applies unchanged.  In particular,
with base `injectDefault = D1`, override `throwOnNoProvider = E2` and no
publisher, resolution throws `E2` and never returns `D1`'s value. -/
theorem C1_default_policy_merge (base : Options K V E) (ov : OverrideOptions V E) :
    (∀ d, ov.injectDefault = some d →
      mergeOptions base ov = { injectDefault := some d, throwOnNoProvider := none }) ∧
    (ov.injectDefault = none → ∀ e, ov.throwOnNoProvider = some e →
      mergeOptions base ov = { injectDefault := none, throwOnNoProvider := some e }) ∧
    (ov.injectDefault = none → ov.throwOnNoProvider = none →
      mergeOptions base ov =
        { injectDefault := base.injectDefault
          throwOnNoProvider := base.throwOnNoProvider }) ∧
    (∀ (d : InjectDefault V) (ef : Unit → E) (ctx : Ctx K V) (k : K), ctx k = none →
      injectMode ctx
        (mergeOptions (K := K) { injectDefault := some d }
          { throwOnNoProvider := some ef }) k =
        Except.error (Thrown.userError (ef ()))) := by
  refine ⟨?_, ?_, ?_, ?_⟩
  · intro d hd; simp [mergeOptions, hd]
  · intro h1 e he; simp [mergeOptions, h1, he]
  · intro h1 h2; simp [mergeOptions, h1, h2]
  · intro d ef ctx k hk; simp [mergeOptions, injectMode, hk]

/-- Witness for C1 at concrete inputs: base `injectDefault = value 1`,
override `throwOnNoProvider` producing `2`, empty context, key `0`. -/
theorem C1_default_policy_merge_witness :
    mergeOptions (K := Nat) { injectDefault := some (InjectDefault.value 1) }
      { throwOnNoProvider := some fun _ => (2 : Nat) } =
      { injectDefault := none, throwOnNoProvider := some fun _ => (2 : Nat) } ∧
    injectMode (fun _ => none)
      (mergeOptions (K := Nat) { injectDefault := some (InjectDefault.value 1) }
        { throwOnNoProvider := some fun _ => (2 : Nat) }) 0 =
      Except.error (Thrown.userError 2) :=
  ⟨(C1_default_policy_merge { injectDefault := some (InjectDefault.value 1) }
      { throwOnNoProvider := some fun _ => (2 : Nat) }).2.1 rfl _ rfl,
   (C1_default_policy_merge ({} : Options Nat Nat Nat) {}).2.2.2
      (InjectDefault.value 1) (fun _ => 2) (fun _ => none) 0 rfl⟩

/-- Claim C4: a publish-mode call whose resolved value is absent — in
particular when neither a bound nor an override initializer exists —
throws the "not initialized" error carrying the binding key, and the
context is unchanged; otherwise the resolved value is published under
the binding key and returned. -/
theorem C4_provide_not_initialized [DecidableEq K] (ctx : Ctx K V)
    (init ov : Option (Initializer V)) (k : K) :
    (resolveProvideValue init ov = none →
      provideMode (E := E) ctx init k (ov.map ProvideArg.func) =
        (Except.error (Thrown.notInitialized k), ctx)) ∧
    (init = none → ov = none →
      provideMode (E := E) ctx init k (ov.map ProvideArg.func) =
        (Except.error (Thrown.notInitialized k), ctx)) ∧
    (∀ v, resolveProvideValue init ov = some v →
      provideMode (E := E) ctx init k (ov.map ProvideArg.func) =
        (Except.ok v, Ctx.set ctx k v)) := by
  refine ⟨?_, ?_, ?_⟩
  · intro h; cases ov <;> simp [provideMode, h]
  · intro hi ho; subst hi; subst ho
    simp [provideMode, resolveProvideValue]
  · intro v h; cases ov <;> simp [provideMode, h]

/-- Witness for C4 at concrete inputs: no initializers at all throws
"not initialized"; a bound initializer returning `5` gets published. -/
theorem C4_provide_not_initialized_witness :
    provideMode (E := Nat) (fun _ => none) none (0 : Nat)
      ((none : Option (Initializer Nat)).map ProvideArg.func) =
      (Except.error (Thrown.notInitialized 0), fun _ => none) ∧
    provideMode (E := Nat) (fun _ => none) (some fun _ => some 5) (0 : Nat)
      ((none : Option (Initializer Nat)).map ProvideArg.func) =
      (Except.ok 5, Ctx.set (fun _ => none) 0 5) :=
  ⟨(C4_provide_not_initialized _ none none 0).2.1 rfl rfl,
   (C4_provide_not_initialized _ (some fun _ => some 5) none 0).2.2 5 rfl⟩

/-- Claim C5: a consume-mode call whose effective policy is
`injectDefault` never throws: a published value is returned when one
exists, else the default is returned, being invoked first when it is a
factory function and returned as-is when it is a plain value. -/
theorem C5_inject_default_never_throws (ctx : Ctx K V) (fo : FinalOptions V E)
    (k : K) (d : InjectDefault V) (h : fo.injectDefault = some d) :
    (∀ v, ctx k = some v → injectMode ctx fo k = Except.ok (some v)) ∧
    (ctx k = none →
      (∀ v, d = InjectDefault.value v → injectMode ctx fo k = Except.ok (some v)) ∧
      (∀ f, d = InjectDefault.factory f →
        injectMode ctx fo k = Except.ok (some (f ())))) ∧
    (∃ w, injectMode ctx fo k = Except.ok (some w)) := by
  refine ⟨?_, ?_, ?_⟩
  · intro v hv; exact injectMode_of_found ctx fo k v hv
  · intro hn
    constructor
    · intro v hd; subst hd; simp [injectMode, h, injectWithDefault, hn]
    · intro f hd; subst hd; simp [injectMode, h, injectWithDefault, hn]
  · exact ⟨injectWithDefault ctx k d, by simp [injectMode, h]⟩

/-- Witness for C5 at concrete inputs: empty context, effective default a
factory producing `4`. -/
theorem C5_inject_default_never_throws_witness :
    injectMode (K := Nat) (E := Nat) (fun _ => none)
      { injectDefault := some (InjectDefault.factory fun _ => (4 : Nat))
        throwOnNoProvider := none } 0 = Except.ok (some 4) :=
  ((C5_inject_default_never_throws (fun _ => none) _ 0 _ rfl).2.1 rfl).2 _ rfl

/-- Claim C6: when a publisher for the binding key is present anywhere in
the ancestor chain, consume mode returns the published value regardless
of any `injectDefault` or `throwOnNoProvider` configured at the factory
or per call. -/
theorem C6_publisher_always_wins (base : Options K V E)
    (ovo : Option (OverrideOptions V E)) (ctx : Ctx K V) (k : K) (v : V)
    (h : ctx k = some v) :
    injectMode ctx (mergeOptions base (ovo.getD {})) k = Except.ok (some v) :=
  injectMode_of_found ctx _ k v h

/-- Witness for C6 at concrete inputs: published value `3`, base
`throwOnNoProvider` producing `9`, override `injectDefault = value 1`. -/
theorem C6_publisher_always_wins_witness :
    injectMode (K := Nat) (fun _ => some (3 : Nat))
      (mergeOptions (K := Nat) { throwOnNoProvider := some fun _ => (9 : Nat) }
        ((some { injectDefault := some (InjectDefault.value 1) } :
          Option (OverrideOptions Nat Nat)).getD {})) 0 = Except.ok (some 3) :=
  C6_publisher_always_wins _ _ _ 0 3 rfl


/-- Claim C7: a consume-mode call with no effective policy (neither
`injectDefault` nor `throwOnNoProvider` in base or override
configuration) and no publisher for the binding key returns an absent
value without throwing, both when the mode argument is omitted and when
it is the explicit literal `'inject'`. -/
theorem C7_no_policy_returns_absent [DecidableEq K] (st : FactoryState K V E)
    (fresh : K) (ctx : Ctx K V) (ovo : Option (OverrideOptions V E))
    (h1 : st.options.injectDefault = none)
    (h2 : st.options.throwOnNoProvider = none)
    (h3 : (ovo.getD {}).injectDefault = none)
    (h4 : (ovo.getD {}).throwOnNoProvider = none)
    (hc : ctx (injectKey st fresh) = none) :
    UseDependencyInjection st fresh ctx (ResolverCall.injectImplicit ovo) =
      (Except.ok none, ctx) ∧
    UseDependencyInjection st fresh ctx (ResolverCall.injectExplicit ovo) =
      (Except.ok none, ctx) := by
  have hm : mergeOptions st.options (ovo.getD {}) =
      { injectDefault := none, throwOnNoProvider := none } := by
    simp [mergeOptions, h3, h4, h1, h2]
  constructor <;> simp [UseDependencyInjection, hm, injectMode, hc]

/-- Witness for C7 at concrete inputs: factory state with no initializer
and empty configuration, absent override, empty context. -/
theorem C7_no_policy_returns_absent_witness :
    UseDependencyInjection (K := Nat) (V := Nat) (E := Nat) ⟨none, {}⟩ 0
      (fun _ => none) (ResolverCall.injectImplicit none) =
      (Except.ok none, fun _ => none) ∧
    UseDependencyInjection (K := Nat) (V := Nat) (E := Nat) ⟨none, {}⟩ 0
      (fun _ => none) (ResolverCall.injectExplicit none) =
      (Except.ok none, fun _ => none) :=
  C7_no_policy_returns_absent ⟨none, {}⟩ 0 (fun _ => none) none
    rfl rfl rfl rfl rfl

/-- Claim C8: a publish-mode call whose second argument is present and not
callable throws the `TypeError` for a bad second argument, regardless of
whether a bound initializer exists, before any value is resolved or the
context changed. -/
theorem C8_provide_second_arg_type_check [DecidableEq K] (ctx : Ctx K V)
    (init : Option (Initializer V)) (k : K) :
    provideMode (E := E) ctx init k (some ProvideArg.nonFunc) =
      (Except.error Thrown.badSecondArg, ctx) :=
  rfl

/-- Claim C9: calling the factory with two arguments whose first is absent
and whose second is a non-absent configuration is treated exactly like a
zero-argument call: no `TypeError`, no initializer bound, and the second
argument's configuration silently ignored. -/
theorem C9_null_first_arg_like_zero_args (o : Options K V E) :
    defineUseDependencyInjection (none : Option (FactoryArg K V E)) (some o) =
      defineUseDependencyInjection (K := K) (V := V) (E := E) none none ∧
    defineUseDependencyInjection (none : Option (FactoryArg K V E)) (some o) =
      Except.ok ⟨none, {}⟩ :=
  ⟨rfl, rfl⟩

/-- Claim C10: a publish-mode call whose callable override initializer
returns an absent value, while the bound initializer returns a
non-absent one, publishes and returns the bound initializer's result
instead of failing with the "not initialized" error. -/
theorem C10_null_override_falls_back [DecidableEq K] (ctx : Ctx K V) (k : K)
    (f g : Initializer V) (v : V) (hf : f () = none) (hg : g () = some v) :
    provideMode (E := E) ctx (some g) k (some (ProvideArg.func f)) =
      (Except.ok v, Ctx.set ctx k v) := by
  simp [provideMode, resolveProvideValue, hf, hg, Option.orElse]

/-- Witness for C10 at concrete inputs: override initializer returning
`none`, bound initializer returning `3`. -/
theorem C10_null_override_falls_back_witness :
    provideMode (E := Nat) (fun _ => none) (some fun _ => some (3 : Nat)) (0 : Nat)
      (some (ProvideArg.func fun _ => none)) =
      (Except.ok 3, Ctx.set (fun _ => none) 0 3) :=
  C10_null_override_falls_back (fun _ => none) 0 (fun _ => none)
    (fun _ => some 3) 3 rfl rfl

/-- Claim C2 counterexample: with a bound initializer returning `7` and an
override initializer whose invocation returns a nullish value, the
published value is `7`, not the override initializer's result — refuting
"if an override initializer is given, it is invoked and its result is
the published value". -/
theorem C2_override_result_counterexample :
    (fun _ : Unit => (none : Option Nat)) () = none ∧
    (provideMode (E := Nat) (fun _ => none) (some fun _ => some (7 : Nat)) (0 : Nat)
        (some (ProvideArg.func fun _ => none))).1 = Except.ok 7 :=
  ⟨rfl, rfl⟩

/-- Claim C2 (amended): in publish mode, if an override initializer is
given and its invocation yields a non-absent value, that value is
published; else if a bound initializer is given and yields a non-absent
value, that value is published; else no value is resolved and the call
fails with the "not initialized" error. -/
theorem C2_provide_value_resolution_amended [DecidableEq K] (ctx : Ctx K V)
    (k : K) (init ov : Option (Initializer V)) :
    (∀ f v, ov = some f → f () = some v →
      provideMode (E := E) ctx init k (ov.map ProvideArg.func) =
        (Except.ok v, Ctx.set ctx k v)) ∧
    ((ov.bind fun f => f ()) = none → ∀ g v, init = some g → g () = some v →
      provideMode (E := E) ctx init k (ov.map ProvideArg.func) =
        (Except.ok v, Ctx.set ctx k v)) ∧
    ((ov.bind fun f => f ()) = none → (init.bind fun g => g ()) = none →
      provideMode (E := E) ctx init k (ov.map ProvideArg.func) =
        (Except.error (Thrown.notInitialized k), ctx)) := by
  refine ⟨?_, ?_, ?_⟩
  · intro f v ho hf; subst ho
    simp [provideMode, resolveProvideValue, hf]
  · intro ho g v hi hg; subst hi
    cases ov with
    | none => simp [provideMode, resolveProvideValue, Option.orElse, hg]
    | some f =>
      have hf : f () = none := by simpa using ho
      simp [provideMode, resolveProvideValue, Option.orElse, hf, hg]
  · intro ho hi
    cases ov with
    | none => simp [provideMode, resolveProvideValue, Option.orElse, hi]
    | some f =>
      have hf : f () = none := by simpa using ho
      simp [provideMode, resolveProvideValue, Option.orElse, hf, hi]

/-- Witness for the amended C2 at concrete inputs: an override initializer
returning `2` wins; with no override, a bound initializer returning `5`
is used; with neither, the call fails with "not initialized". -/
theorem C2_provide_value_resolution_witness :
    provideMode (E := Nat) (fun _ => none) none (0 : Nat)
      ((some (fun _ => some (2 : Nat)) : Option (Initializer Nat)).map
        ProvideArg.func) =
      (Except.ok 2, Ctx.set (fun _ => none) 0 2) ∧
    provideMode (E := Nat) (fun _ => none) (some fun _ => some (5 : Nat)) (0 : Nat)
      ((none : Option (Initializer Nat)).map ProvideArg.func) =
      (Except.ok 5, Ctx.set (fun _ => none) 0 5) ∧
    provideMode (E := Nat) (fun _ => none) none (0 : Nat)
      ((none : Option (Initializer Nat)).map ProvideArg.func) =
      (Except.error (Thrown.notInitialized 0), fun _ => none) :=
  ⟨(C2_provide_value_resolution_amended (fun _ => none) 0 none
      (some fun _ => some 2)).1 _ 2 rfl rfl,
   (C2_provide_value_resolution_amended (fun _ => none) 0
      (some fun _ => some 5) none).2.1 rfl _ 5 rfl rfl,
   (C2_provide_value_resolution_amended (fun _ => none) 0 none none).2.2
      rfl rfl⟩

/-- Claim C3 counterexample: a two-argument factory call whose first
argument is absent (nullish, hence not a function) and whose second is a
non-absent configuration does not throw the `TypeError` — it succeeds,
refuting "if the first argument is not a function the call fails". -/
theorem C3_two_arg_counterexample :
    defineUseDependencyInjection (K := Nat) (V := Nat) (E := Nat) none (some {}) =
      Except.ok ⟨none, {}⟩ ∧
    defineUseDependencyInjection (K := Nat) (V := Nat) (E := Nat) none (some {}) ≠
      Except.error Thrown.badFirstArg := by
  constructor
  · rfl
  · intro h
    simp [defineUseDependencyInjection] at h

/-- Claim C3 (amended): for every factory call with two non-absent
arguments, if the first is not a function the call throws the
`TypeError` for a bad first argument; if the first is a function, or
either argument is absent, no error is raised. -/
theorem C3_two_arg_first_must_be_function (arg0 : Option (FactoryArg K V E))
    (arg1 : Option (Options K V E)) :
    (∀ o o1, arg0 = some (FactoryArg.options o) → arg1 = some o1 →
      defineUseDependencyInjection arg0 arg1 = Except.error Thrown.badFirstArg) ∧
    ((∃ f, arg0 = some (FactoryArg.initializer f)) ∨ arg0 = none ∨ arg1 = none →
      ∃ st, defineUseDependencyInjection arg0 arg1 = Except.ok st) := by
  constructor
  · intro o o1 h0 h1; subst h0; subst h1; rfl
  · intro h
    rcases h with ⟨f, h0⟩ | h0 | h1
    · subst h0; cases arg1 <;> exact ⟨_, rfl⟩
    · subst h0; exact ⟨_, rfl⟩
    · subst h1
      cases arg0 with
      | none => exact ⟨_, rfl⟩
      | some a => cases a <;> exact ⟨_, rfl⟩

/-- Witness for the amended C3 at concrete inputs: a configuration object
as first of two non-absent arguments throws; an initializer as first of
two non-absent arguments succeeds. -/
theorem C3_two_arg_first_must_be_function_witness :
    defineUseDependencyInjection (K := Nat) (V := Nat) (E := Nat)
      (some (FactoryArg.options {})) (some {}) =
      Except.error Thrown.badFirstArg ∧
    ∃ st, defineUseDependencyInjection (K := Nat) (V := Nat) (E := Nat)
      (some (FactoryArg.initializer fun _ => some 1)) (some {}) =
      Except.ok st :=
  ⟨(C3_two_arg_first_must_be_function _ _).1 {} {} rfl rfl,
   (C3_two_arg_first_must_be_function _ _).2 (Or.inl ⟨_, rfl⟩)⟩


end VueEasyDI
